import Mathlib

/-!
# Verification of the statsig-rs local rule evaluator

A shallow embedding of the `statsig-rs` SDK core (src/evaluator/getters.rs,
src/evaluator/models.rs, src/evaluator/mod.rs, src/models.rs, src/client.rs,
src/http.rs) together with theorems settling the frozen claims about it.

Modelling conventions:
* `serde_json::Value` numbers are modelled over the integers (`Int`); the f64
  variant of `serde_json::Number` and floating-point rounding are out of scope.
  `passPercentage` (an `f64` in `ConfigRule`) is modelled over `ℚ`.
* Rust `HashMap`s are modelled as association lists with first-match lookup.
* The SHA-256 primitive comes from the external `sha2` crate; it is passed to
  the evaluator as an explicit digest function `String → List Nat` (byte list).
* The wall clock (`SystemTime::now`, read by `current_time` conditions) is
  passed as an explicit parameter `now` (unix seconds).
* Recursive cross-gate evaluation is given an explicit `fuel` bound; the Rust
  code recurses unboundedly on a catalog assumed acyclic, and the claims are
  stated parametrically in `fuel`.
-/

/-- Association-list lookup, modelling `HashMap::get` (`contains_key` + `get`). -/
def alist_get {α : Type} (m : List (String × α)) (k : String) : Option α :=
  match m.find? (fun p => p.1 == k) with
  | some p => some p.2
  | none => none

/-- `serde_json::Value`, with numbers restricted to integers (see header). -/
inductive JsonValue where
  | null : JsonValue
  | bool (b : Bool) : JsonValue
  | num (n : Int) : JsonValue
  | str (s : String) : JsonValue
  | arr (items : List JsonValue) : JsonValue
  | obj (fields : List (String × JsonValue)) : JsonValue

/-- `Value::as_str`. -/
def JsonValue.as_str : JsonValue → Option String
  | .str s => some s
  | _ => none

/-- `Value::as_array`. -/
def JsonValue.as_array : JsonValue → Option (List JsonValue)
  | .arr items => some items
  | _ => none

/-- `Value::is_null`. -/
def JsonValue.is_null : JsonValue → Bool
  | .null => true
  | _ => false

/-- `Value::is_string`. -/
def JsonValue.is_string : JsonValue → Bool
  | .str _ => true
  | _ => false

/-- Rust `bool`'s `Display`/`to_string`. -/
def bool_to_string (b : Bool) : String := if b then "true" else "false"

/-- Digits-only unsigned decimal reading used by the integer parsers. -/
def read_digits (cs : List Char) : Nat :=
  cs.foldl (fun acc c => acc * 10 + (c.toNat - 48)) 0

/-- Rust `str::parse::<iN>` for a signed integer type with range `[lo, hi]`:
an optional sign followed by one or more ASCII digits, erring on overflow. -/
def parse_int_in (lo hi : Int) (s : String) : Option Int :=
  let signAndDigits : Int × List Char :=
    match s.data with
    | '+' :: rest => (1, rest)
    | '-' :: rest => (-1, rest)
    | l => (1, l)
  let sign := signAndDigits.1
  let ds := signAndDigits.2
  if ds ≠ [] ∧ ds.all Char.isDigit then
    let n : Int := sign * (read_digits ds : Int)
    if lo ≤ n ∧ n ≤ hi then some n else none
  else none

/-- `str::parse::<i64>().unwrap_or_default()`. -/
def parseI64 (s : String) : Int :=
  (parse_int_in (-(2 ^ 63)) (2 ^ 63 - 1) s).getD 0

/-- `str::parse::<i32>().unwrap_or_default()` (version components). -/
def parseI32 (s : String) : Int :=
  (parse_int_in (-(2 ^ 31)) (2 ^ 31 - 1) s).getD 0

/-- Best-effort decimal parse of a string into a number, modelling
`str::parse::<f64>` over `ℚ` on plain decimal literals (`[sign] digits
[. digits]`); exotic float syntax (exponents, inf, nan) is out of scope. -/
def parse_decimal (s : String) : Option ℚ :=
  let signAndDigits : ℚ × List Char :=
    match s.data with
    | '+' :: rest => (1, rest)
    | '-' :: rest => (-1, rest)
    | l => (1, l)
  let sign := signAndDigits.1
  match signAndDigits.2.splitOn '.' with
  | [ds] =>
    if ds ≠ [] ∧ ds.all Char.isDigit then some (sign * read_digits ds) else none
  | [ds, fs] =>
    if ds ≠ [] ∧ ds.all Char.isDigit ∧ fs ≠ [] ∧ fs.all Char.isDigit then
      some (sign * (read_digits ds + (read_digits fs : ℚ) / 10 ^ fs.length))
    else none
  | _ => none

/-- getters.rs `get_numeric_value`. -/
def get_numeric_value : JsonValue → Option ℚ
  | .null => none
  | .bool _ => none
  | .num n => some (n : ℚ)
  | .str s => parse_decimal s
  | .arr _ => none
  | .obj _ => none

/-- The string coercion of a JSON value. getters.rs declares
`get_string : &Value → String`; evaluator/mod.rs applies `Option` combinators
(`map`, `is_none`, pattern matches on `Some`/`None`) to its result, so the
evaluator is embedded against this `Option`-returning form, with `null`,
arrays and objects giving `none` (getters.rs maps those to `""`; the two
agree through `(get_string v).getD ""` on every other constructor). -/
def get_string : JsonValue → Option String
  | .null => none
  | .bool b => some (bool_to_string b)
  | .num n => some (toString n)
  | .str s => some s
  | .arr _ => none
  | .obj _ => none

/-- getters.rs `get_unix_epoch`: coerce a JSON value to unix-epoch seconds.
`Number::as_i64` yields the integer when it fits in `i64` (else default 0);
`i64` division truncates toward zero (`Int.tdiv`). -/
def get_unix_epoch (v : JsonValue) : Int :=
  let val : Int :=
    match v with
    | .null => 0
    | .bool _ => 0
    | .num n => if -(2 ^ 63) ≤ n ∧ n < 2 ^ 63 then n else 0
    | .str s => parseI64 s
    | .arr _ => 0
    | .obj _ => 0
  if val > 2147483647 then val.tdiv 1000 else val

/-- evaluator/models.rs `ConfigSpecType`. -/
inductive ConfigSpecType where
  | dynamicConfig : ConfigSpecType
  | featureGate : ConfigSpecType
  | unknown : ConfigSpecType
deriving DecidableEq, Repr

/-- getters.rs `get_config_value`. -/
def get_config_value (v : JsonValue) (config_type : ConfigSpecType) :
    Option JsonValue :=
  match config_type with
  | .dynamicConfig => some v
  | .featureGate => none
  | .unknown => none

/-- getters.rs `get_hash` without the SHA-256 step: combine the digest bytes
(`res.get(i).unwrap_or(&0)`) exactly as the Rust shift-and-or chain does. -/
def combine_digest (res : List Nat) : Nat :=
  (res.getD 7 0) |||
  (res.getD 6 0) <<< 8 |||
  (res.getD 5 0) <<< 16 |||
  (res.getD 4 0) <<< 24 |||
  (res.getD 3 0) <<< 32 |||
  (res.getD 2 0) <<< 40 |||
  (res.getD 1 0) <<< 48 |||
  (res.getD 0 0) <<< 56

/-- getters.rs `get_hash`, parameterized by the external SHA-256 digest. -/
def get_hash (sha256 : String → List Nat) (s : String) : Nat :=
  combine_digest (sha256 s)

/-- The first eight bytes of a digest read as a big-endian unsigned 64-bit
integer (the spec's `hash64` reading; absent bytes read as 0). -/
def big_endian_first8 (res : List Nat) : Nat :=
  (res.getD 0 0) * 2 ^ 56 +
  (res.getD 1 0) * 2 ^ 48 +
  (res.getD 2 0) * 2 ^ 40 +
  (res.getD 3 0) * 2 ^ 32 +
  (res.getD 4 0) * 2 ^ 24 +
  (res.getD 5 0) * 2 ^ 16 +
  (res.getD 6 0) * 2 ^ 8 +
  (res.getD 7 0)

theorem lor_mul_two_pow : ∀ (k x y : ℕ), x < 2 ^ k → x ||| y * 2 ^ k = x + y * 2 ^ k := by
  intro k
  induction k with
  | zero =>
    intro x y h
    have hx : x = 0 := by omega
    simp [hx]
  | succ k ih =>
    intro x y h
    have hb := Nat.bodd_add_div2 x
    have hdiv : x.div2 < 2 ^ k := by
      have h2 : (2 : ℕ) ^ (k + 1) = 2 * 2 ^ k := by ring
      omega
    have key := Nat.lor_bit x.bodd x.div2 false (y * 2 ^ k)
    rw [Nat.bit_decomp x] at key
    have hf : Nat.bit false (y * 2 ^ k) = y * 2 ^ (k + 1) := by
      rw [Nat.bit_val]
      simp only [Bool.toNat_false, Nat.add_zero, pow_succ]
      ring
    rw [hf, Bool.or_false] at key
    rw [key, ih x.div2 y hdiv, Nat.bit_val]
    have h4 : y * 2 ^ (k + 1) = 2 * (y * 2 ^ k) := by ring
    omega

/-- Every `getD _ 0` of a byte list is a byte. -/
theorem getD_lt_256 (res : List Nat) (h : ∀ b ∈ res, b < 256) (i : Nat) :
    res.getD i 0 < 256 := by
  rcases lt_or_ge i res.length with hi | hi
  · rw [List.getD_eq_getElem res 0 hi]
    exact h _ (List.getElem_mem hi)
  · rw [List.getD_eq_default res 0 hi]
    omega

/-- On genuine byte lists the Rust shift-and-or chain of `get_hash` computes
exactly the big-endian reading of the first eight digest bytes. -/
theorem combine_digest_eq_big_endian (res : List Nat) (h : ∀ b ∈ res, b < 256) :
    combine_digest res = big_endian_first8 res := by
  have b0 := getD_lt_256 res h 0
  have b1 := getD_lt_256 res h 1
  have b2 := getD_lt_256 res h 2
  have b3 := getD_lt_256 res h 3
  have b4 := getD_lt_256 res h 4
  have b5 := getD_lt_256 res h 5
  have b6 := getD_lt_256 res h 6
  have b7 := getD_lt_256 res h 7
  unfold combine_digest big_endian_first8
  simp only [Nat.shiftLeft_eq]
  rw [lor_mul_two_pow 8 _ _ (by omega)]
  rw [lor_mul_two_pow 16 _ _ (by omega)]
  rw [lor_mul_two_pow 24 _ _ (by omega)]
  rw [lor_mul_two_pow 32 _ _ (by omega)]
  rw [lor_mul_two_pow 40 _ _ (by omega)]
  rw [lor_mul_two_pow 48 _ _ (by omega)]
  rw [lor_mul_two_pow 56 _ _ (by omega)]
  ring

/-- models.rs `StatsigEnvironment`. -/
structure StatsigEnvironment where
  tier : String
deriving DecidableEq, Repr

/-- models.rs `StatsigEnvironment::get_field` (only `tier` is recognized,
case-insensitively on the field name). -/
def StatsigEnvironment.get_field (e : StatsigEnvironment) (field : String) : String :=
  if field.toLower == "tier" then e.tier else ""

/-- models.rs `StatsigUser`. String maps are association lists (see header). -/
structure StatsigUser where
  user_id : String
  email : Option String
  ip : Option String
  user_agent : Option String
  country : Option String
  locale : Option String
  app_version : Option String
  custom : Option (List (String × String))
  private_atributes : Option (List (String × String))
  custom_ids : Option (List (String × String))
  statsig_environment : StatsigEnvironment
deriving DecidableEq, Repr

/-- models.rs `StatsigUser::new`. -/
def StatsigUser.new (user_id tier : String) : StatsigUser where
  user_id := user_id
  email := none
  ip := none
  user_agent := none
  country := none
  locale := none
  app_version := none
  custom := none
  private_atributes := none
  custom_ids := none
  statsig_environment := ⟨tier⟩

/-- models.rs `StatsigUser::get_unit_id`: the id of `id_type` for the user,
defaulting to `user_id`. -/
def StatsigUser.get_unit_id (u : StatsigUser) (id_type : String) : String :=
  if id_type.toLower == "userid" then u.user_id
  else
    match u.custom_ids with
    | some custom_ids =>
      match alist_get custom_ids id_type with
      | some v => v
      | none =>
        match alist_get custom_ids id_type.toLower with
        | some v => v
        | none => u.user_id
    | none => u.user_id

/-- models.rs `StatsigUser::get_field`. Scalar fields are matched on the
ASCII-lowercased name; otherwise `custom` is consulted (raw then lowercased
key) and, only when `custom` is absent, `private_atributes`. -/
def StatsigUser.get_field (u : StatsigUser) (field : String) : String :=
  let lf := field.toLower
  if lf == "userid" ∨ lf == "user_id" then u.user_id
  else if lf == "email" then u.email.getD ""
  else if lf == "ip" ∨ lf == "ipaddress" ∨ lf == "ip_address" then u.ip.getD ""
  else if lf == "useragent" ∨ lf == "user_agent" then u.user_agent.getD ""
  else if lf == "country" then u.country.getD ""
  else if lf == "locale" then u.locale.getD ""
  else if lf == "appversion" ∨ lf == "app_version" then u.app_version.getD ""
  else
    match u.custom with
    | some custom =>
      match alist_get custom field with
      | some v => v
      | none => (alist_get custom field.toLower).getD ""
    | none =>
      match u.private_atributes with
      | some priv =>
        match alist_get priv field with
        | some v => v
        | none => (alist_get priv field.toLower).getD ""
      | none => ""

/-- evaluator/models.rs `ConditionType` (with the `serde(other)` catch-all). -/
inductive ConditionType where
  | public : ConditionType
  | failGate : ConditionType
  | passGate : ConditionType
  | ipBased : ConditionType
  | uaBased : ConditionType
  | userField : ConditionType
  | environmentField : ConditionType
  | currentTime : ConditionType
  | userBucket : ConditionType
  | unitId : ConditionType
  | unknown : ConditionType
deriving DecidableEq, Repr, BEq

/-- evaluator/models.rs `OperatorType` (with the `serde(other)` catch-all). -/
inductive OperatorType where
  | gt | gte | lt | lte
  | versionGt | versionGte | versionLt | versionLte | versionEq | versionNeq
  | any | none | anyCaseSensitive | noneCaseSensitive
  | strStartsWithAny | strEndsWithAny | strContainsAny | strContainsNone
  | strMatches
  | eq | neq
  | before | after | on
  | inSegmentList | notInSegmentList
  | unknown
deriving DecidableEq, Repr, BEq

/-- evaluator/models.rs `ConfigCondition`. -/
structure ConfigCondition where
  type : ConditionType
  operator : Option OperatorType
  field : Option String
  target_value : Option JsonValue
  additional_values : Option (List (String × String))
  id_type : String

/-- evaluator/models.rs `ConfigRule` (`pass_percentage : f64` modelled over ℚ). -/
structure ConfigRule where
  name : String
  id : String
  salt : String
  pass_percentage : ℚ
  conditions : List ConfigCondition
  return_value : JsonValue
  id_type : String
  group_name : Option String

/-- evaluator/models.rs `ConfigSpec`. -/
structure ConfigSpec where
  name : String
  type : ConfigSpecType
  salt : String
  enabled : Bool
  rules : Option (List ConfigRule)
  default_value : JsonValue
  id_type : Option String

/-- models.rs `SecondaryExposure`: the three-key string map
(`gate`/`gateValue`/`ruleID`) built for pass-gate and fail-gate conditions. -/
structure SecondaryExposure where
  gate : String
  gate_value : String
  rule_id : String
deriving DecidableEq, Repr

/-- evaluator/models.rs `EvalResult`. -/
structure EvalResult where
  pass : Bool
  config_value : Option JsonValue
  fetch_from_server : Bool
  id : String
  secondary_exposures : List SecondaryExposure
  group : String
  group_name : Option String
  rule_id : String

/-- evaluator/models.rs `EvalResult::new`. -/
def EvalResult.new (pass fetch_from_server : Bool) : EvalResult where
  pass := pass
  fetch_from_server := fetch_from_server
  config_value := none
  id := "default"
  secondary_exposures := []
  group := "default"
  group_name := some "default"
  rule_id := "default"

/-- evaluator/models.rs `EvalResult::pass()`. -/
def EvalResult.mkPass : EvalResult := EvalResult.new true false

/-- evaluator/models.rs `EvalResult::fail()` (also `Default::default()`). -/
def EvalResult.mkFail : EvalResult := EvalResult.new false false

/-- evaluator/models.rs `EvalResult::fetch_from_server()`. -/
def EvalResult.mkFetchFromServer : EvalResult := EvalResult.new false true

/-- evaluator/models.rs `ConfigData` (the `downloadSpecs` payload). -/
structure ConfigData where
  dynamic_configs : Option (List ConfigSpec)
  feature_gates : Option (List ConfigSpec)
  layer_configs : Option (List ConfigSpec)
  has_updates : Bool
  time : Option Nat

/-- The three name-indexed catalogs held by evaluator/mod.rs `Evaluator`. -/
structure EvaluatorState where
  dynamic_configs : List (String × ConfigSpec)
  gates : List (String × ConfigSpec)
  layer_configs : List (String × ConfigSpec)

/-- evaluator/mod.rs `Evaluator::new`. -/
def EvaluatorState.new : EvaluatorState := ⟨[], [], []⟩

/-- evaluator/mod.rs `Evaluator::refresh_configs`: replace all three
catalogs wholesale with the maps built from the payload. -/
def refresh_configs (_s : EvaluatorState) (data : ConfigData) : EvaluatorState where
  dynamic_configs := (data.dynamic_configs.getD []).map (fun d => (d.name, d))
  gates := (data.feature_gates.getD []).map (fun f => (f.name, f))
  layer_configs := (data.layer_configs.getD []).map (fun f => (f.name, f))

/-- evaluator/mod.rs `compare_numbers`: numeric comparison after coercion;
false when either side has no numeric value. -/
def compare_numbers (v1 v2 : JsonValue) (f : ℚ → ℚ → Bool) : Bool :=
  match get_numeric_value v1, get_numeric_value v2 with
  | some n1, some n2 => f n1 n2
  | _, _ => false

/-- The string before the first `'-'` (evaluator/mod.rs pre-release
stripping in `compare_versions`; the whole string when there is no `'-'`). -/
def strip_from_dash (s : String) : String :=
  ((s.splitOn "-").headD s)

/-- The component-wise loop of evaluator/mod.rs `compare_versions`: walk both
dotted-component lists, parsing each component as an `i32` (non-numeric or
missing components read 0), and return -1/0/1 at the first difference. -/
def version_components_compare : List String → List String → Int
  | [], [] => 0
  | x :: xs, [] =>
    let v1 := parseI32 x
    if v1 < 0 then -1 else if 0 < v1 then 1 else version_components_compare xs []
  | [], y :: ys =>
    let v2 := parseI32 y
    if 0 < v2 then -1 else if v2 < 0 then 1 else version_components_compare [] ys
  | x :: xs, y :: ys =>
    let v1 := parseI32 x
    let v2 := parseI32 y
    if v1 < v2 then -1 else if v2 < v1 then 1 else version_components_compare xs ys

/-- evaluator/mod.rs `compare_versions`. -/
def compare_versions (v1 v2 : JsonValue) (f : Int → Bool) : Bool :=
  match get_string v1, get_string v2 with
  | some n1, some n2 =>
    let n1 := strip_from_dash n1
    let n2 := strip_from_dash n2
    f (version_components_compare (n1.splitOn ".") (n2.splitOn "."))
  | _, _ => false

/-- Proleptic-Gregorian civil date `(year, month, day)` from a day count
relative to 1970-01-01 (Hinnant's `civil_from_days`); models the calendar
date that `chrono`'s `Utc.timestamp(secs, 0)` exposes via
`year()`/`month()`/`day()`. -/
def civil_from_days (z0 : Int) : Int × Int × Int :=
  let z := z0 + 719468
  let era := z.fdiv 146097
  let doe := z - era * 146097
  let yoe := (doe - doe.fdiv 1460 + doe.fdiv 36524 - doe.fdiv 146096).fdiv 365
  let y := yoe + era * 400
  let doy := doe - (365 * yoe + yoe.fdiv 4 - yoe.fdiv 100)
  let mp := (5 * doy + 2).fdiv 153
  let d := doy - (153 * mp + 2).fdiv 5 + 1
  let m := mp + (if mp < 10 then 3 else -9)
  (y + (if m ≤ 2 then 1 else 0), m, d)

/-- The UTC calendar date of an epoch-seconds instant (`Utc.timestamp`). -/
def utc_date (secs : Int) : Int × Int × Int :=
  civil_from_days (secs.fdiv 86400)

/-- serde_json's `PartialEq` between a Rust string and a `Value` (`s == value`
holds exactly when the value is a string with the same content). -/
def str_eq_value (s : String) (v : JsonValue) : Bool :=
  match v with
  | .str t => s == t
  | _ => false

/-- The bucket-hash input string of evaluator/mod.rs `eval_pass_percent`:
`"{spec.salt}.{rule.salt, or rule.id when rule.salt is empty}.{unit id}"`. -/
def bucket_input (spec : ConfigSpec) (rule : ConfigRule) (user : StatsigUser) :
    String :=
  let rule_salt := if rule.salt == "" then rule.id else rule.salt
  spec.salt ++ "." ++ rule_salt ++ "." ++ user.get_unit_id rule.id_type

/-- evaluator/mod.rs `eval_pass_percent` (`(hash % 10000) as f64 <
pass_percentage * 100.0`, over ℚ). -/
def eval_pass_percent (sha256 : String → List Nat) (user : StatsigUser)
    (rule : ConfigRule) (spec : ConfigSpec) : Bool :=
  let hash := get_hash sha256 (bucket_input spec rule user)
  decide (((hash % 10000 : ℕ) : ℚ) < rule.pass_percentage * 100)

/-- The operator dispatch at the tail of evaluator/mod.rs `eval_condition`
(`let pass = match condition.operator ...`), factored out of the mutual
recursion: it never recurses into other gates. Arms that the local evaluator
does not implement return `fetch_from_server`. -/
def eval_operator (condition : ConfigCondition) (value : JsonValue) :
    EvalResult :=
  let target := condition.target_value.getD JsonValue.null
  let wrap : Bool → EvalResult := fun pass => { EvalResult.mkFail with pass := pass }
  match condition.operator.getD OperatorType.unknown with
  | .gt => wrap (compare_numbers value target (fun n1 n2 => decide (n1 > n2)))
  | .gte => wrap (compare_numbers value target (fun n1 n2 => decide (n1 ≥ n2)))
  | .lt => wrap (compare_numbers value target (fun n1 n2 => decide (n1 < n2)))
  | .lte => wrap (compare_numbers value target (fun n1 n2 => decide (n1 ≤ n2)))
  | .versionGt => wrap (compare_versions value target (fun cmp => decide (cmp > 0)))
  | .versionGte => wrap (compare_versions value target (fun cmp => decide (cmp ≥ 0)))
  | .versionLt => wrap (compare_versions value target (fun cmp => decide (cmp < 0)))
  | .versionLte => wrap (compare_versions value target (fun cmp => decide (cmp ≤ 0)))
  | .versionEq => wrap (compare_versions value target (fun cmp => decide (cmp = 0)))
  | .versionNeq => wrap (compare_versions value target (fun cmp => decide (cmp ≠ 0)))
  | .any =>
    let lower_val := (get_string value).map String.toLower
    wrap (match target.as_array with
      | Option.none => false
      | some arr => arr.any (fun v => (get_string v).map String.toLower == lower_val))
  | .none =>
    let lower_val := (get_string value).map String.toLower
    wrap (match target.as_array with
      | Option.none => true
      | some arr => !arr.any (fun v => (get_string v).map String.toLower == lower_val))
  | .anyCaseSensitive =>
    wrap (match target.as_array with
      | Option.none => false
      | some arr => arr.any (fun v =>
          match get_string v with
          | Option.none => false
          | some s => str_eq_value s value))
  | .noneCaseSensitive =>
    wrap (match target.as_array with
      | Option.none => true
      | some arr => !arr.any (fun v =>
          match get_string v with
          | Option.none => false
          | some s => str_eq_value s value))
  | .strStartsWithAny => EvalResult.mkFetchFromServer
  | .strEndsWithAny => EvalResult.mkFetchFromServer
  | .strContainsAny => EvalResult.mkFetchFromServer
  | .strContainsNone => EvalResult.mkFetchFromServer
  | .strMatches => EvalResult.mkFetchFromServer
  | .eq =>
    wrap (match target.as_str with
      | Option.none => (value.is_string && value.as_str == some "") || value.is_null
      | some t => str_eq_value t value)
  | .neq =>
    wrap (match target.as_str with
      | Option.none => !((value.is_string && value.as_str == some "") || value.is_null)
      | some t => !str_eq_value t value)
  | .before => wrap (decide (get_unix_epoch value < get_unix_epoch target))
  | .after => wrap (decide (get_unix_epoch value > get_unix_epoch target))
  | .on => wrap (decide (utc_date (get_unix_epoch value) = utc_date (get_unix_epoch target)))
  | .inSegmentList => EvalResult.mkFetchFromServer
  | .notInSegmentList => EvalResult.mkFetchFromServer
  | .unknown => EvalResult.mkFetchFromServer

mutual

/-- evaluator/mod.rs `Evaluator::check_gate_internal`: look the gate up in
the `gates` catalog; a missing gate is a clean fail. -/
def check_gate_internal (sha256 : String → List Nat) (ev : EvaluatorState)
    (fuel : Nat) (now : Int) (user : StatsigUser) (gate_name : String) :
    EvalResult :=
  match alist_get ev.gates gate_name with
  | some gate => eval_spec sha256 ev fuel now user gate
  | none => EvalResult.mkFail
termination_by (fuel, 5, 0)

/-- evaluator/mod.rs `Evaluator::eval_spec`. -/
def eval_spec (sha256 : String → List Nat) (ev : EvaluatorState) (fuel : Nat)
    (now : Int) (user : StatsigUser) (spec : ConfigSpec) : EvalResult :=
  if !spec.enabled then { EvalResult.mkFail with id := "disabled" }
  else eval_rules sha256 ev fuel now user spec [] (spec.rules.getD [])
termination_by (fuel, 4, 0)

/-- The rule loop of `eval_spec` (lines 180-228 of evaluator/mod.rs),
carrying the accumulated secondary exposures; the empty-list case is the
fall-through default return. -/
def eval_rules (sha256 : String → List Nat) (ev : EvaluatorState) (fuel : Nat)
    (now : Int) (user : StatsigUser) (spec : ConfigSpec)
    (exposures : List SecondaryExposure) (rules : List ConfigRule) : EvalResult :=
  match rules with
  | [] =>
    { EvalResult.mkFail with
        secondary_exposures := exposures
        config_value := get_config_value spec.default_value spec.type }
  | rule :: rest =>
    let res := eval_rule sha256 ev fuel now user rule
    if res.fetch_from_server then res
    else
      let exposures := exposures ++ res.secondary_exposures
      if res.pass then
        let pass := eval_pass_percent sha256 user rule spec
        if pass then
          { pass := true
            fetch_from_server := false
            id := rule.id
            secondary_exposures := exposures
            config_value := get_config_value rule.return_value spec.type
            group := rule.name
            group_name := rule.group_name
            rule_id := rule.id }
        else
          { pass := false
            fetch_from_server := false
            id := rule.id
            secondary_exposures := exposures
            config_value := get_config_value spec.default_value spec.type
            group := "default"
            group_name := some "default"
            rule_id := "default" }
      else eval_rules sha256 ev fuel now user spec exposures rest
termination_by (fuel, 3, rules.length)

/-- evaluator/mod.rs `Evaluator::eval_rule`: fold every condition of the
rule (starting from `EvalResult { pass: true, ..Default::default() }`). -/
def eval_rule (sha256 : String → List Nat) (ev : EvaluatorState) (fuel : Nat)
    (now : Int) (user : StatsigUser) (rule : ConfigRule) : EvalResult :=
  eval_conditions_loop sha256 ev fuel now user
    { EvalResult.mkFail with pass := true } rule.conditions
termination_by (fuel, 2, 0)

/-- The condition loop of `eval_rule`: conjoin passes, disjoin
`fetch_from_server`, append secondary exposures, never short-circuiting. -/
def eval_conditions_loop (sha256 : String → List Nat) (ev : EvaluatorState)
    (fuel : Nat) (now : Int) (user : StatsigUser) (acc : EvalResult)
    (conditions : List ConfigCondition) : EvalResult :=
  match conditions with
  | [] => acc
  | condition :: rest =>
    let res := eval_condition sha256 ev fuel now user condition
    eval_conditions_loop sha256 ev fuel now user
      { acc with
          pass := acc.pass && res.pass
          fetch_from_server := acc.fetch_from_server || res.fetch_from_server
          secondary_exposures := acc.secondary_exposures ++ res.secondary_exposures }
      rest
termination_by (fuel, 1, conditions.length)

/-- evaluator/mod.rs `Evaluator::eval_condition`. Pass-gate and fail-gate
conditions recurse into `check_gate_internal` at one fuel less (the Rust
recursion is unbounded; fuel exhaustion is a clean fail). -/
def eval_condition (sha256 : String → List Nat) (ev : EvaluatorState)
    (fuel : Nat) (now : Int) (user : StatsigUser)
    (condition : ConfigCondition) : EvalResult :=
  match condition.type with
  | .public => EvalResult.mkPass
  | .failGate | .passGate =>
    match (condition.target_value.getD JsonValue.null).as_str with
    | Option.none => EvalResult.mkFail
    | some gate_name =>
      match fuel with
      | 0 => EvalResult.mkFail
      | fuel' + 1 =>
        let res := check_gate_internal sha256 ev fuel' now user gate_name
        if res.fetch_from_server then EvalResult.mkFetchFromServer
        else
          let new_exposure : SecondaryExposure :=
            { gate := gate_name
              gate_value := bool_to_string res.pass
              rule_id := res.id }
          { EvalResult.mkFail with
              pass := (condition.type == ConditionType.passGate && res.pass)
                || (condition.type == ConditionType.failGate && !res.pass)
              secondary_exposures := res.secondary_exposures ++ [new_exposure] }
  | .ipBased => EvalResult.mkFetchFromServer
  | .uaBased => EvalResult.mkFetchFromServer
  | .userField =>
    eval_operator condition
      (JsonValue.str (user.get_field (condition.field.getD "")))
  | .environmentField =>
    eval_operator condition
      (JsonValue.str (user.statsig_environment.get_field (condition.field.getD "")))
  | .currentTime => eval_operator condition (JsonValue.num now)
  | .userBucket =>
    match condition.additional_values.bind (fun h => alist_get h "salt") with
    | some salt =>
      eval_operator condition
        (JsonValue.num ((get_hash sha256 (salt ++ "." ++ user.get_unit_id condition.id_type)) % 1000 : ℕ))
    | Option.none => eval_operator condition JsonValue.null
  | .unitId =>
    eval_operator condition (JsonValue.str (user.get_unit_id condition.id_type))
  | .unknown => EvalResult.mkFetchFromServer
termination_by (fuel, 0, 0)

end

/-- evaluator/mod.rs `Evaluator::get_dynamic_config_internal`. -/
def get_dynamic_config_internal (sha256 : String → List Nat)
    (ev : EvaluatorState) (fuel : Nat) (now : Int) (user : StatsigUser)
    (config_name : String) : EvalResult :=
  match alist_get ev.dynamic_configs config_name with
  | some spec => eval_spec sha256 ev fuel now user spec
  | none => EvalResult.mkFail

/-- client.rs error outcomes relevant to the per-call operations:
`bail!("statsig: missing user id")` and `anyhow!("empty config")`. -/
inductive StatsigErr where
  | missingUserId : StatsigErr
  | emptyConfig : StatsigErr
deriving DecidableEq, Repr

/-- What a per-call client operation does after its local decision phase:
either it delegates to the HTTP transport (server fallback / cache-disabled
path, an external effect) or it answers locally with a value. -/
inductive CallResult (α : Type) where
  | delegatedToServer : CallResult α
  | evaluatedLocally (val : α) : CallResult α
deriving DecidableEq, Repr

/-- models.rs `StatsigConfig` with the decoded value kept as raw JSON
(the caller-parameterized serde decode is external). -/
structure StatsigConfig where
  value : Option JsonValue
  name : String
  group_name : Option String
  rule_id : String
  group : String

/-- models.rs `StatsigExperiment`, value kept as raw JSON. -/
structure StatsigExperiment where
  value : Option JsonValue
  name : String
  group_name : Option String
  rule_id : String
  group : String
  secondary_exposures : List SecondaryExposure

/-- models.rs `StatsigEvent`. -/
structure StatsigEvent where
  event_name : String
  value : String
  time : String
  user : StatsigUser
  metadata : List (String × String)

/-- models.rs `StatsigPost`. -/
structure StatsigPost where
  events : List StatsigEvent

/-- `serde_json::from_value::<Option<T>>(v.unwrap_or(Null))` as used by
client.rs `get_config`/`get_experiment`: JSON null decodes to `None`,
anything else to `Some` of the decoded value (decoding kept as raw JSON). -/
def decode_optional (v : Option JsonValue) : Option JsonValue :=
  match v.getD JsonValue.null with
  | .null => none
  | w => some w

/-- client.rs `Client::check_gate` up to its first external effect: the
empty-user-id guard, then the cache-disabled or server-fallback delegation,
else the locally evaluated boolean. Exposure enqueueing is telemetry and is
not modelled here. -/
def client_check_gate (sha256 : String → List Nat) (ev : EvaluatorState)
    (fuel : Nat) (now : Int) (disable_cache : Bool) (gate : String)
    (user : StatsigUser) : Except StatsigErr (CallResult Bool) :=
  if user.user_id == "" then .error .missingUserId
  else if disable_cache then .ok .delegatedToServer
  else
    let res := check_gate_internal sha256 ev fuel now user gate
    if res.fetch_from_server then .ok .delegatedToServer
    else .ok (.evaluatedLocally res.pass)

/-- client.rs `Client::get_dynamic_config` up to its first external effect:
guard, delegation, then `config_value.take().ok_or(anyhow!("empty config"))`
— an absent config value is surfaced as an error. -/
def client_get_dynamic_config (sha256 : String → List Nat)
    (ev : EvaluatorState) (fuel : Nat) (now : Int) (disable_cache : Bool)
    (config : String) (user : StatsigUser) :
    Except StatsigErr (CallResult JsonValue) :=
  if user.user_id == "" then .error .missingUserId
  else if disable_cache then .ok .delegatedToServer
  else
    let res := get_dynamic_config_internal sha256 ev fuel now user config
    if res.fetch_from_server then .ok .delegatedToServer
    else
      match res.config_value with
      | none => .error .emptyConfig
      | some v => .ok (.evaluatedLocally v)

/-- client.rs `Client::get_config` up to its first external effect. -/
def client_get_config (sha256 : String → List Nat) (ev : EvaluatorState)
    (fuel : Nat) (now : Int) (disable_cache : Bool) (config : String)
    (user : StatsigUser) : Except StatsigErr (CallResult StatsigConfig) :=
  if user.user_id == "" then .error .missingUserId
  else if disable_cache then .ok .delegatedToServer
  else
    let res := get_dynamic_config_internal sha256 ev fuel now user config
    if res.fetch_from_server then .ok .delegatedToServer
    else
      .ok (.evaluatedLocally
        { value := decode_optional res.config_value
          name := config
          group_name := res.group_name
          rule_id := res.rule_id
          group := res.group })

/-- client.rs `Client::get_experiment` up to its first external effect
(the `/log_custom_exposure` call is awaited but its failure is absorbed). -/
def client_get_experiment (sha256 : String → List Nat) (ev : EvaluatorState)
    (fuel : Nat) (now : Int) (disable_cache : Bool) (experiment_name : String)
    (user : StatsigUser) : Except StatsigErr (CallResult StatsigExperiment) :=
  if user.user_id == "" then .error .missingUserId
  else if disable_cache then .ok .delegatedToServer
  else
    let res := get_dynamic_config_internal sha256 ev fuel now user experiment_name
    if res.fetch_from_server then .ok .delegatedToServer
    else
      .ok (.evaluatedLocally
        { value := decode_optional res.config_value
          name := experiment_name
          group_name := res.group_name
          rule_id := res.rule_id
          group := res.group
          secondary_exposures := res.secondary_exposures })

/-- client.rs `Client::log_event`: an unconditional pass-through to
`http_client.log_event` — no user-id validation of the payload. -/
def client_log_event (_post : StatsigPost) : Except StatsigErr (CallResult Unit) :=
  .ok .delegatedToServer

/-- The outcome of one `fetch_state_from_source` transport attempt as seen
by the refresh loop in client.rs `poll_for_changes`. -/
inductive FetchResult where
  | failure : FetchResult
  | success (data : ConfigData) : FetchResult

/-- One tick of client.rs `poll_for_changes`: on transport failure keep the
catalog; on success refresh only when `has_updates` is set. -/
def poll_tick (ev : EvaluatorState) (r : FetchResult) : EvaluatorState :=
  match r with
  | .failure => ev
  | .success new_state =>
    if new_state.has_updates then refresh_configs ev new_state else ev

/-- The request URL built by http.rs `fetch_state_from_source`:
`{cdn_url}/download_config_specs/{api_key}.json` — it carries no
since-time / `lastUpdateTime` component. -/
def fetch_state_url (cdn_url api_key : String) : String :=
  cdn_url ++ "/download_config_specs/" ++ api_key ++ ".json"

/-! ## Claim theorems -/

/-- C1: the percentage-bucketing check passes iff `H mod 10000 <
passPercentage * 100`, where `H` reads the first eight bytes of the SHA-256
digest of `"{spec.salt}.{rule.salt | rule.id}.{unitId}"` as a big-endian
unsigned 64-bit integer; `passPercentage = 100` always passes and
`passPercentage = 0` never does. -/
theorem eval_pass_percent_bucketing (sha256 : String → List Nat)
    (user : StatsigUser) (rule : ConfigRule) (spec : ConfigSpec)
    (hbytes : ∀ b ∈ sha256 (bucket_input spec rule user), b < 256) :
    (eval_pass_percent sha256 user rule spec = true ↔
      ((big_endian_first8 (sha256 (bucket_input spec rule user)) % 10000 : ℕ) : ℚ)
        < rule.pass_percentage * 100)
    ∧ (rule.pass_percentage = 100 → eval_pass_percent sha256 user rule spec = true)
    ∧ (rule.pass_percentage = 0 → eval_pass_percent sha256 user rule spec = false) := by
  have hcomb : get_hash sha256 (bucket_input spec rule user) =
      big_endian_first8 (sha256 (bucket_input spec rule user)) :=
    combine_digest_eq_big_endian _ hbytes
  have hmod : get_hash sha256 (bucket_input spec rule user) % 10000 < 10000 :=
    Nat.mod_lt _ (by norm_num)
  refine ⟨?_, ?_, ?_⟩
  · unfold eval_pass_percent
    rw [hcomb]
    simp [decide_eq_true_eq]
  · intro h
    unfold eval_pass_percent
    rw [h]
    simp only [decide_eq_true_eq]
    have : ((get_hash sha256 (bucket_input spec rule user) % 10000 : ℕ) : ℚ) < 10000 := by
      exact_mod_cast hmod
    calc ((get_hash sha256 (bucket_input spec rule user) % 10000 : ℕ) : ℚ)
        < 10000 := this
      _ = 100 * 100 := by norm_num
  · intro h
    unfold eval_pass_percent
    rw [h]
    simp only [decide_eq_false_iff_not, not_lt, zero_mul]
    positivity

/-- A digest collaborator for concrete witnesses: the empty byte list
(every absent byte reads as `0` in `get_hash`). -/
def sha_zero : String → List Nat := fun _ => []

/-- A concrete user for witnesses. -/
def user_w : StatsigUser := StatsigUser.new "user_id" "production"

/-- A concrete rule with no conditions and `passPercentage = 100`. -/
def rule_w : ConfigRule where
  name := "rule_group"
  id := "rule_1"
  salt := "rsalt"
  pass_percentage := 100
  conditions := []
  return_value := JsonValue.bool true
  id_type := "userID"
  group_name := some "Rule group"

/-- A concrete enabled feature gate holding `rule_w`. -/
def spec_w : ConfigSpec where
  name := "gate_w"
  type := ConfigSpecType.featureGate
  salt := "salt"
  enabled := true
  rules := some [rule_w]
  default_value := JsonValue.bool false
  id_type := some "userID"

/-- Witness for C1 at `sha_zero`/`user_w`/`rule_w`/`spec_w`. -/
theorem eval_pass_percent_bucketing_witness :
    (eval_pass_percent sha_zero user_w rule_w spec_w = true ↔
      ((big_endian_first8 (sha_zero (bucket_input spec_w rule_w user_w)) % 10000 : ℕ) : ℚ)
        < rule_w.pass_percentage * 100)
    ∧ (rule_w.pass_percentage = 100 → eval_pass_percent sha_zero user_w rule_w spec_w = true)
    ∧ (rule_w.pass_percentage = 0 → eval_pass_percent sha_zero user_w rule_w spec_w = false) :=
  eval_pass_percent_bucketing sha_zero user_w rule_w spec_w (by simp [sha_zero])

/-- C2: a passGate/failGate condition recursively evaluates the gate named
by its targetValue; a missing gate gives a clean fail (no server fallback);
a sub-result requesting server fallback is propagated; otherwise one new
exposure `{gate, gateValue, ruleID}` is appended after the sub-result's own
exposures and the condition passes iff `(passGate ∧ sub.pass) ∨ (failGate ∧
¬sub.pass)`. -/
theorem eval_condition_gate_ref (sha256 : String → List Nat)
    (ev : EvaluatorState) (fuel : Nat) (now : Int) (user : StatsigUser)
    (condition : ConfigCondition) (gate_name : String)
    (htype : condition.type = ConditionType.passGate ∨
      condition.type = ConditionType.failGate)
    (htarget : condition.target_value = some (JsonValue.str gate_name)) :
    (EvalResult.mkFail.pass = false ∧ EvalResult.mkFail.fetch_from_server = false)
    ∧ (alist_get ev.gates gate_name = none →
        check_gate_internal sha256 ev fuel now user gate_name = EvalResult.mkFail)
    ∧ ((check_gate_internal sha256 ev fuel now user gate_name).fetch_from_server = true →
        eval_condition sha256 ev (fuel + 1) now user condition =
          EvalResult.mkFetchFromServer)
    ∧ ((check_gate_internal sha256 ev fuel now user gate_name).fetch_from_server = false →
        eval_condition sha256 ev (fuel + 1) now user condition =
          { EvalResult.mkFail with
              pass := (condition.type == ConditionType.passGate
                    && (check_gate_internal sha256 ev fuel now user gate_name).pass)
                || (condition.type == ConditionType.failGate
                    && !(check_gate_internal sha256 ev fuel now user gate_name).pass)
              secondary_exposures :=
                (check_gate_internal sha256 ev fuel now user gate_name).secondary_exposures
                ++ [{ gate := gate_name
                      gate_value := bool_to_string
                        (check_gate_internal sha256 ev fuel now user gate_name).pass
                      rule_id := (check_gate_internal sha256 ev fuel now user gate_name).id }] }) := by
  refine ⟨⟨rfl, rfl⟩, ?_, ?_, ?_⟩
  · intro h
    simp only [check_gate_internal, h]
  · intro h
    rcases htype with ht | ht <;>
      simp [eval_condition, ht, htarget, JsonValue.as_str, h]
  · intro h
    rcases htype with ht | ht <;>
      simp [eval_condition, ht, htarget, JsonValue.as_str, h]

/-- A catalog whose only gate is `spec_w` under the name `"gate_w"`. -/
def ev_w : EvaluatorState where
  dynamic_configs := []
  gates := [("gate_w", spec_w)]
  layer_configs := []

/-- A passGate condition targeting a name missing from `ev_w`. -/
def cond_missing_gate : ConfigCondition where
  type := ConditionType.passGate
  operator := none
  field := none
  target_value := some (JsonValue.str "no_such_gate")
  additional_values := none
  id_type := "userID"

/-- Witness for C2 at a gate name missing from the concrete catalog. -/
theorem eval_condition_gate_ref_witness :
    (EvalResult.mkFail.pass = false ∧ EvalResult.mkFail.fetch_from_server = false)
    ∧ (alist_get ev_w.gates "no_such_gate" = none →
        check_gate_internal sha_zero ev_w 0 0 user_w "no_such_gate" = EvalResult.mkFail)
    ∧ ((check_gate_internal sha_zero ev_w 0 0 user_w "no_such_gate").fetch_from_server = true →
        eval_condition sha_zero ev_w 1 0 user_w cond_missing_gate =
          EvalResult.mkFetchFromServer)
    ∧ ((check_gate_internal sha_zero ev_w 0 0 user_w "no_such_gate").fetch_from_server = false →
        eval_condition sha_zero ev_w 1 0 user_w cond_missing_gate =
          { EvalResult.mkFail with
              pass := (cond_missing_gate.type == ConditionType.passGate
                    && (check_gate_internal sha_zero ev_w 0 0 user_w "no_such_gate").pass)
                || (cond_missing_gate.type == ConditionType.failGate
                    && !(check_gate_internal sha_zero ev_w 0 0 user_w "no_such_gate").pass)
              secondary_exposures :=
                (check_gate_internal sha_zero ev_w 0 0 user_w "no_such_gate").secondary_exposures
                ++ [{ gate := "no_such_gate"
                      gate_value := bool_to_string
                        (check_gate_internal sha_zero ev_w 0 0 user_w "no_such_gate").pass
                      rule_id := (check_gate_internal sha_zero ev_w 0 0 user_w "no_such_gate").id }] }) :=
  eval_condition_gate_ref sha_zero ev_w 0 0 user_w cond_missing_gate "no_such_gate"
    (Or.inl rfl) rfl

/-- The condition loop of `eval_rule` folds every condition: conjunction of
passes, disjunction of fallbacks, concatenation of exposures, on top of the
incoming accumulator. -/
theorem eval_conditions_loop_spec (sha256 : String → List Nat)
    (ev : EvaluatorState) (fuel : Nat) (now : Int) (user : StatsigUser) :
    ∀ (conditions : List ConfigCondition) (acc : EvalResult),
    eval_conditions_loop sha256 ev fuel now user acc conditions =
      { acc with
          pass := acc.pass &&
            (conditions.map fun c => (eval_condition sha256 ev fuel now user c).pass).all id
          fetch_from_server := acc.fetch_from_server ||
            (conditions.map fun c => (eval_condition sha256 ev fuel now user c).fetch_from_server).any id
          secondary_exposures := acc.secondary_exposures ++
            (conditions.map fun c => (eval_condition sha256 ev fuel now user c).secondary_exposures).flatten } := by
  intro conditions
  induction conditions with
  | nil =>
    intro acc
    simp [eval_conditions_loop]
  | cons condition rest ih =>
    intro acc
    rw [eval_conditions_loop, ih]
    simp [Bool.and_assoc, Bool.or_assoc]

/-- C3: `evalRule` evaluates every condition without short-circuiting; pass
is the conjunction of condition passes, fetchFromServer the disjunction of
their flags, and the secondary exposures are concatenated in condition
order. -/
theorem eval_rule_folds_conditions (sha256 : String → List Nat)
    (ev : EvaluatorState) (fuel : Nat) (now : Int) (user : StatsigUser)
    (rule : ConfigRule) :
    eval_rule sha256 ev fuel now user rule =
      { pass := (rule.conditions.map fun c =>
            (eval_condition sha256 ev fuel now user c).pass).all id
        fetch_from_server := (rule.conditions.map fun c =>
            (eval_condition sha256 ev fuel now user c).fetch_from_server).any id
        secondary_exposures := (rule.conditions.map fun c =>
            (eval_condition sha256 ev fuel now user c).secondary_exposures).flatten
        config_value := none
        id := "default"
        group := "default"
        group_name := some "default"
        rule_id := "default" } := by
  rw [eval_rule, eval_conditions_loop_spec]
  simp [EvalResult.mkFail, EvalResult.new]

/-- C10: a rule with no conditions passes vacuously (no fallback, no
exposures), so in an enabled spec whose only rule it is, the outcome is
decided by percentage bucketing alone and carries the rule's id. -/
theorem eval_rule_empty_conditions (sha256 : String → List Nat)
    (ev : EvaluatorState) (fuel : Nat) (now : Int) (user : StatsigUser)
    (rule : ConfigRule) (spec : ConfigSpec)
    (hconds : rule.conditions = [])
    (henabled : spec.enabled = true)
    (hrules : spec.rules = some [rule]) :
    eval_rule sha256 ev fuel now user rule = EvalResult.mkPass
    ∧ (eval_spec sha256 ev fuel now user spec).pass =
        eval_pass_percent sha256 user rule spec
    ∧ (eval_spec sha256 ev fuel now user spec).id = rule.id := by
  have hrule : eval_rule sha256 ev fuel now user rule = EvalResult.mkPass := by
    rw [eval_rule, hconds]
    simp [eval_conditions_loop, EvalResult.mkFail, EvalResult.mkPass, EvalResult.new]
  refine ⟨hrule, ?_⟩
  rw [eval_spec, henabled, hrules]
  simp only [Bool.not_true, Bool.false_eq_true, if_false, Option.getD_some]
  rw [eval_rules, hrule]
  cases h : eval_pass_percent sha256 user rule spec <;>
    simp [EvalResult.mkPass, EvalResult.mkFail, EvalResult.new, h]

/-- Witness for C10 at the concrete `rule_w`/`spec_w`. -/
theorem eval_rule_empty_conditions_witness :
    eval_rule sha_zero ev_w 1 0 user_w rule_w = EvalResult.mkPass
    ∧ (eval_spec sha_zero ev_w 1 0 user_w spec_w).pass =
        eval_pass_percent sha_zero user_w rule_w spec_w
    ∧ (eval_spec sha_zero ev_w 1 0 user_w spec_w).id = rule_w.id :=
  eval_rule_empty_conditions sha_zero ev_w 1 0 user_w rule_w spec_w rfl rfl rfl

/-- C4 (amended): a disabled spec short-circuits to `{pass: false, id:
"disabled"}` with an *absent* configValue (the coerced default is not
attached on this path), no rule being evaluated. -/
theorem eval_spec_disabled (sha256 : String → List Nat) (ev : EvaluatorState)
    (fuel : Nat) (now : Int) (user : StatsigUser) (spec : ConfigSpec)
    (h : spec.enabled = false) :
    eval_spec sha256 ev fuel now user spec =
      { EvalResult.mkFail with id := "disabled" } := by
  rw [eval_spec, h]
  simp

/-- A disabled dynamic config with a non-null default value. -/
def spec_disabled : ConfigSpec where
  name := "dc_disabled"
  type := ConfigSpecType.dynamicConfig
  salt := "s"
  enabled := false
  rules := some []
  default_value := JsonValue.str "d"
  id_type := none

/-- Witness for C4 (amended) at the concrete `spec_disabled`. -/
theorem eval_spec_disabled_witness :
    eval_spec sha_zero ev_w 1 0 user_w spec_disabled =
      { EvalResult.mkFail with id := "disabled" } :=
  eval_spec_disabled sha_zero ev_w 1 0 user_w spec_disabled rfl

/-- C4 counterexample: on the disabled dynamic config `spec_disabled` the
result's configValue is absent, while the claimed coerced default is
`some "d"`. -/
theorem eval_spec_disabled_counterexample :
    (eval_spec sha_zero ev_w 1 0 user_w spec_disabled).config_value = none
    ∧ get_config_value spec_disabled.default_value spec_disabled.type =
        some (JsonValue.str "d")
    ∧ (eval_spec sha_zero ev_w 1 0 user_w spec_disabled).config_value ≠
        get_config_value spec_disabled.default_value spec_disabled.type := by
  have h1 : eval_spec sha_zero ev_w 1 0 user_w spec_disabled =
      { EvalResult.mkFail with id := "disabled" } := by
    rw [eval_spec]
    simp [spec_disabled]
  refine ⟨by rw [h1]; rfl, rfl, ?_⟩
  rw [h1]
  simp [get_config_value, spec_disabled, EvalResult.mkFail, EvalResult.new]

/-- C5 (amended): with a non-empty user id, a missing gate is handled
silently (`checkGate` answers `false` locally, `getConfig` answers with an
absent value), but `getDynamicConfig` on a missing config name surfaces the
absent config value as an `"empty config"` error. -/
theorem missing_name_handling (sha256 : String → List Nat)
    (ev : EvaluatorState) (fuel : Nat) (now : Int) (gate config : String)
    (user : StatsigUser)
    (huser : (user.user_id == "") = false)
    (hgate : alist_get ev.gates gate = none)
    (hconfig : alist_get ev.dynamic_configs config = none) :
    client_check_gate sha256 ev fuel now false gate user =
      .ok (.evaluatedLocally false)
    ∧ client_get_dynamic_config sha256 ev fuel now false config user =
      .error .emptyConfig
    ∧ client_get_config sha256 ev fuel now false config user =
      .ok (.evaluatedLocally
        { value := none
          name := config
          group_name := some "default"
          rule_id := "default"
          group := "default" }) := by
  have hg : check_gate_internal sha256 ev fuel now user gate = EvalResult.mkFail := by
    simp only [check_gate_internal, hgate]
  have hc : get_dynamic_config_internal sha256 ev fuel now user config =
      EvalResult.mkFail := by
    simp only [get_dynamic_config_internal, hconfig]
  refine ⟨?_, ?_, ?_⟩
  · rw [client_check_gate]
    simp [huser, hg, EvalResult.mkFail, EvalResult.new]
  · rw [client_get_dynamic_config]
    simp [huser, hc, EvalResult.mkFail, EvalResult.new]
  · rw [client_get_config]
    simp [huser, hc, EvalResult.mkFail, EvalResult.new, decode_optional]

/-- Witness for C5 (amended): names absent from the concrete catalog. -/
theorem missing_name_handling_witness :
    client_check_gate sha_zero ev_w 1 0 false "no_gate" user_w =
      .ok (.evaluatedLocally false)
    ∧ client_get_dynamic_config sha_zero ev_w 1 0 false "no_config" user_w =
      .error .emptyConfig
    ∧ client_get_config sha_zero ev_w 1 0 false "no_config" user_w =
      .ok (.evaluatedLocally
        { value := none
          name := "no_config"
          group_name := some "default"
          rule_id := "default"
          group := "default" }) :=
  missing_name_handling sha_zero ev_w 1 0 "no_gate" "no_config" user_w rfl rfl rfl

/-- C5 counterexample: `getDynamicConfig` on an unknown config name, with a
user whose id is non-empty, returns an error — the not-found condition is
surfaced to the caller. -/
theorem get_dynamic_config_not_found_errors :
    (user_w.user_id == "") = false
    ∧ alist_get ev_w.dynamic_configs "unknown_config" = none
    ∧ client_get_dynamic_config sha_zero ev_w 1 0 false "unknown_config" user_w =
        .error .emptyConfig := by
  exact ⟨rfl, rfl, rfl⟩

/-- C7 (amended): checkGate, getDynamicConfig, getConfig and getExperiment
all fail with the invalid-argument error when the user's id is empty, before
any evaluation or transport delegation (for every catalog and cache mode);
logEvent performs no such validation and passes its payload through. -/
theorem empty_user_id_guard (sha256 : String → List Nat)
    (ev : EvaluatorState) (fuel : Nat) (now : Int) (disable_cache : Bool)
    (gate config experiment_name : String) (user : StatsigUser)
    (post : StatsigPost)
    (huser : user.user_id = "") :
    client_check_gate sha256 ev fuel now disable_cache gate user =
      .error .missingUserId
    ∧ client_get_dynamic_config sha256 ev fuel now disable_cache config user =
      .error .missingUserId
    ∧ client_get_config sha256 ev fuel now disable_cache config user =
      .error .missingUserId
    ∧ client_get_experiment sha256 ev fuel now disable_cache experiment_name user =
      .error .missingUserId
    ∧ client_log_event post = .ok .delegatedToServer := by
  refine ⟨?_, ?_, ?_, ?_, rfl⟩ <;>
    simp [client_check_gate, client_get_dynamic_config, client_get_config,
      client_get_experiment, huser]

/-- An exposure-log payload whose event's user has an empty user id. -/
def post_empty_user : StatsigPost where
  events := [{ event_name := "statsig::gate_exposure"
               value := "false"
               time := "0"
               user := { user_w with user_id := "" }
               metadata := [] }]

/-- Witness for C7 (amended) at an empty-id user and concrete arguments. -/
theorem empty_user_id_guard_witness :
    client_check_gate sha_zero ev_w 1 0 false "g" { user_w with user_id := "" } =
      .error .missingUserId
    ∧ client_get_dynamic_config sha_zero ev_w 1 0 false "c" { user_w with user_id := "" } =
      .error .missingUserId
    ∧ client_get_config sha_zero ev_w 1 0 false "c" { user_w with user_id := "" } =
      .error .missingUserId
    ∧ client_get_experiment sha_zero ev_w 1 0 false "e" { user_w with user_id := "" } =
      .error .missingUserId
    ∧ client_log_event post_empty_user = .ok .delegatedToServer :=
  empty_user_id_guard sha_zero ev_w 1 0 false "g" "c" "e"
    { user_w with user_id := "" } post_empty_user rfl

/-- C7 counterexample: `logEvent` accepts a payload whose user has an empty
user id — it does not fail with the invalid-argument error. -/
theorem log_event_skips_user_validation :
    (post_empty_user.events.map fun e => e.user.user_id) = [""]
    ∧ client_log_event post_empty_user = .ok .delegatedToServer
    ∧ client_log_event post_empty_user ≠ .error .missingUserId := by
  refine ⟨rfl, rfl, ?_⟩
  simp [client_log_event]

/-- C6 (amended): a refresh tick keeps the catalog on transport failure and
on `has_updates = false`; on `has_updates = true` it replaces the whole
catalog from the payload (independently of the previous state) while
ignoring the payload's `time` field — the client keeps no `lastUpdateTime`
cursor, and the download request carries none. -/
theorem poll_tick_spec (ev ev2 : EvaluatorState) (data : ConfigData)
    (t1 t2 : Option Nat) (cdn_url api_key : String) :
    poll_tick ev FetchResult.failure = ev
    ∧ (data.has_updates = false → poll_tick ev (FetchResult.success data) = ev)
    ∧ (data.has_updates = true →
        poll_tick ev (FetchResult.success data) = refresh_configs ev data
        ∧ refresh_configs ev data = refresh_configs ev2 data)
    ∧ poll_tick ev (FetchResult.success { data with time := t1 }) =
        poll_tick ev (FetchResult.success { data with time := t2 })
    ∧ fetch_state_url cdn_url api_key =
        cdn_url ++ "/download_config_specs/" ++ api_key ++ ".json" := by
  refine ⟨rfl, ?_, ?_, ?_, rfl⟩
  · intro h
    simp [poll_tick, h]
  · intro h
    exact ⟨by simp [poll_tick, h], rfl⟩
  · cases h : data.has_updates <;> simp [poll_tick, refresh_configs, h]

/-- A concrete catalog payload carrying a `time` field. -/
def data_t (t : Option Nat) : ConfigData where
  dynamic_configs := none
  feature_gates := some [spec_w]
  layer_configs := none
  has_updates := true
  time := t

/-- Witness for C6 (amended) at concrete states and payloads. -/
theorem poll_tick_spec_witness :
    poll_tick ev_w FetchResult.failure = ev_w
    ∧ ((data_t (some 5)).has_updates = false →
        poll_tick ev_w (FetchResult.success (data_t (some 5))) = ev_w)
    ∧ ((data_t (some 5)).has_updates = true →
        poll_tick ev_w (FetchResult.success (data_t (some 5))) =
          refresh_configs ev_w (data_t (some 5))
        ∧ refresh_configs ev_w (data_t (some 5)) =
            refresh_configs EvaluatorState.new (data_t (some 5)))
    ∧ poll_tick ev_w (FetchResult.success { data_t (some 5) with time := some 5 }) =
        poll_tick ev_w (FetchResult.success { data_t (some 5) with time := some 7 })
    ∧ fetch_state_url "https://cdn" "api_key" =
        "https://cdn" ++ "/download_config_specs/" ++ "api_key" ++ ".json" :=
  poll_tick_spec ev_w EvaluatorState.new (data_t (some 5)) (some 5) (some 7)
    "https://cdn" "api_key"

/-- C6 counterexample: two successful responses that differ only in their
`time` field produce identical client states — no state component is
advanced to the response's `time`, so there is no `lastUpdateTime` cursor to
pass or to keep monotone. -/
theorem poll_tick_ignores_time_counterexample :
    (data_t (some 5)).time ≠ (data_t (some 7)).time
    ∧ (data_t (some 5)).has_updates = true
    ∧ poll_tick EvaluatorState.new (FetchResult.success (data_t (some 5))) =
        poll_tick EvaluatorState.new (FetchResult.success (data_t (some 7)))
    ∧ fetch_state_url "https://cdn" "api_key" =
        "https://cdn/download_config_specs/api_key.json" := by
  refine ⟨by simp [data_t], rfl, rfl, rfl⟩

/-- C8 (amended): `toEpochSeconds` maps null/bool/array/object to 0, an
in-`i64`-range number to itself, a string to its parsed `i64` (0 when
unparseable), and divides by 1000 exactly when the resulting value exceeds
`i32::MAX = 2147483647` — values that are merely large in magnitude but
negative are returned unchanged. -/
theorem get_unix_epoch_spec (b : Bool) (xs : List JsonValue)
    (fs : List (String × JsonValue)) (n : Int) (s : String)
    (hn : -(2 ^ 63) ≤ n ∧ n < 2 ^ 63) :
    get_unix_epoch JsonValue.null = 0
    ∧ get_unix_epoch (JsonValue.bool b) = 0
    ∧ get_unix_epoch (JsonValue.arr xs) = 0
    ∧ get_unix_epoch (JsonValue.obj fs) = 0
    ∧ (n ≤ 2147483647 → get_unix_epoch (JsonValue.num n) = n)
    ∧ (2147483647 < n → get_unix_epoch (JsonValue.num n) = n.tdiv 1000)
    ∧ (parseI64 s ≤ 2147483647 → get_unix_epoch (JsonValue.str s) = parseI64 s)
    ∧ (2147483647 < parseI64 s →
        get_unix_epoch (JsonValue.str s) = (parseI64 s).tdiv 1000)
    ∧ get_unix_epoch (JsonValue.str "1700000000000") = 1700000000 := by
  refine ⟨rfl, rfl, rfl, rfl, ?_, ?_, ?_, ?_, rfl⟩
  · intro h
    simp only [get_unix_epoch, if_pos hn]
    rw [if_neg (by omega)]
  · intro h
    simp only [get_unix_epoch, if_pos hn]
    rw [if_pos (by omega)]
  · intro h
    simp only [get_unix_epoch]
    rw [if_neg (by omega)]
  · intro h
    simp only [get_unix_epoch]
    rw [if_pos (by omega)]

/-- Witness for C8 (amended) at concrete inputs. -/
theorem get_unix_epoch_spec_witness :
    get_unix_epoch JsonValue.null = 0
    ∧ get_unix_epoch (JsonValue.bool true) = 0
    ∧ get_unix_epoch (JsonValue.arr []) = 0
    ∧ get_unix_epoch (JsonValue.obj []) = 0
    ∧ ((3000000000 : Int) ≤ 2147483647 →
        get_unix_epoch (JsonValue.num 3000000000) = 3000000000)
    ∧ ((2147483647 : Int) < 3000000000 →
        get_unix_epoch (JsonValue.num 3000000000) = (3000000000 : Int).tdiv 1000)
    ∧ (parseI64 "1700000000000" ≤ 2147483647 →
        get_unix_epoch (JsonValue.str "1700000000000") = parseI64 "1700000000000")
    ∧ (2147483647 < parseI64 "1700000000000" →
        get_unix_epoch (JsonValue.str "1700000000000") =
          (parseI64 "1700000000000").tdiv 1000)
    ∧ get_unix_epoch (JsonValue.str "1700000000000") = 1700000000 :=
  get_unix_epoch_spec true [] [] 3000000000 "1700000000000"
    ⟨by norm_num, by norm_num⟩

/-- C8 counterexample: `"-1700000000000"` parses to a value whose magnitude
exceeds `i32::MAX`, yet the code returns it unchanged instead of dividing
by 1000 as the claim requires for large magnitudes. -/
theorem get_unix_epoch_negative_counterexample :
    get_unix_epoch (JsonValue.str "-1700000000000") = -1700000000000
    ∧ (2147483647 : Int).natAbs < (-1700000000000 : Int).natAbs
    ∧ (-1700000000000 : Int).tdiv 1000 = -1700000000
    ∧ get_unix_epoch (JsonValue.str "-1700000000000") ≠ -1700000000 := by
  have h1 : get_unix_epoch (JsonValue.str "-1700000000000") = -1700000000000 := rfl
  refine ⟨h1, by decide, by decide, ?_⟩
  rw [h1]
  decide

/-- Lifts agreement of `eval_condition` on two evaluator states (with equal
`gates` catalogs) through the whole evaluation stack at one fuel level. -/
theorem eval_stack_congr_of_cond (sha256 : String → List Nat) (fuel : Nat)
    (now : Int) (user : StatsigUser) (ev1 ev2 : EvaluatorState)
    (hg : ev1.gates = ev2.gates)
    (hcond : ∀ c, eval_condition sha256 ev1 fuel now user c =
        eval_condition sha256 ev2 fuel now user c) :
    (∀ acc cs, eval_conditions_loop sha256 ev1 fuel now user acc cs =
        eval_conditions_loop sha256 ev2 fuel now user acc cs)
    ∧ (∀ rule, eval_rule sha256 ev1 fuel now user rule =
        eval_rule sha256 ev2 fuel now user rule)
    ∧ (∀ spec exps rules, eval_rules sha256 ev1 fuel now user spec exps rules =
        eval_rules sha256 ev2 fuel now user spec exps rules)
    ∧ (∀ spec, eval_spec sha256 ev1 fuel now user spec =
        eval_spec sha256 ev2 fuel now user spec)
    ∧ (∀ g, check_gate_internal sha256 ev1 fuel now user g =
        check_gate_internal sha256 ev2 fuel now user g) := by
  have hloop : ∀ cs acc, eval_conditions_loop sha256 ev1 fuel now user acc cs =
      eval_conditions_loop sha256 ev2 fuel now user acc cs := by
    intro cs
    induction cs with
    | nil => intro acc; simp only [eval_conditions_loop]
    | cons c rest ihl =>
      intro acc
      simp only [eval_conditions_loop]
      rw [hcond c]
      exact ihl _
  have hrule : ∀ rule, eval_rule sha256 ev1 fuel now user rule =
      eval_rule sha256 ev2 fuel now user rule := by
    intro rule
    simp only [eval_rule]
    exact hloop _ _
  have hrules : ∀ spec rules exps,
      eval_rules sha256 ev1 fuel now user spec exps rules =
      eval_rules sha256 ev2 fuel now user spec exps rules := by
    intro spec rules
    induction rules with
    | nil => intro exps; simp only [eval_rules]
    | cons r rest ihr =>
      intro exps
      simp only [eval_rules]
      rw [hrule r]
      simp only [ihr]
  have hspec : ∀ spec, eval_spec sha256 ev1 fuel now user spec =
      eval_spec sha256 ev2 fuel now user spec := by
    intro spec
    simp only [eval_spec]
    rw [hrules]
  have hgate : ∀ g, check_gate_internal sha256 ev1 fuel now user g =
      check_gate_internal sha256 ev2 fuel now user g := by
    intro g
    simp only [check_gate_internal, hg]
    cases h : alist_get ev2.gates g with
    | some gate => simp only [h, hspec]
    | none => simp only [h]
  exact ⟨fun acc cs => hloop cs acc, hrule, fun spec exps rules => hrules spec rules exps,
    hspec, hgate⟩

/-- All the evaluator functions read only the `gates` catalog of the state:
two states with equal `gates` maps are indistinguishable to them. -/
theorem evaluator_reads_only_gates (sha256 : String → List Nat) :
    ∀ (fuel : Nat) (ev1 ev2 : EvaluatorState), ev1.gates = ev2.gates →
    ∀ (now : Int) (user : StatsigUser),
    (∀ c, eval_condition sha256 ev1 fuel now user c =
        eval_condition sha256 ev2 fuel now user c)
    ∧ (∀ acc cs, eval_conditions_loop sha256 ev1 fuel now user acc cs =
        eval_conditions_loop sha256 ev2 fuel now user acc cs)
    ∧ (∀ rule, eval_rule sha256 ev1 fuel now user rule =
        eval_rule sha256 ev2 fuel now user rule)
    ∧ (∀ spec exps rules, eval_rules sha256 ev1 fuel now user spec exps rules =
        eval_rules sha256 ev2 fuel now user spec exps rules)
    ∧ (∀ spec, eval_spec sha256 ev1 fuel now user spec =
        eval_spec sha256 ev2 fuel now user spec)
    ∧ (∀ g, check_gate_internal sha256 ev1 fuel now user g =
        check_gate_internal sha256 ev2 fuel now user g) := by
  intro fuel
  induction fuel with
  | zero =>
    intro ev1 ev2 hg now user
    have hcond : ∀ c, eval_condition sha256 ev1 0 now user c =
        eval_condition sha256 ev2 0 now user c := by
      rintro ⟨t, op, fl, tv, av, idt⟩
      cases t <;> simp only [eval_condition]
    exact ⟨hcond, eval_stack_congr_of_cond sha256 0 now user ev1 ev2 hg hcond⟩
  | succ f ih =>
    intro ev1 ev2 hg now user
    have hcheck := (ih ev1 ev2 hg now user).2.2.2.2.2
    have hcond : ∀ c, eval_condition sha256 ev1 (f + 1) now user c =
        eval_condition sha256 ev2 (f + 1) now user c := by
      rintro ⟨t, op, fl, tv, av, idt⟩
      cases t <;> simp only [eval_condition, hcheck]
    exact ⟨hcond, eval_stack_congr_of_cond sha256 (f + 1) now user ev1 ev2 hg hcond⟩

/-- C9 (amended): gate checking is deterministic given the gates catalog,
the digest function and the evaluation clock — the result is a function of
`(user, gate, gates, now, sha256)` alone, independent in particular of the
`dynamic_configs` and `layer_configs` parts of the state. Evaluations at
*different* clock instants may differ (see the counterexample). -/
theorem check_gate_deterministic (sha256 : String → List Nat) (fuel : Nat)
    (now : Int) (user : StatsigUser) (gate : String)
    (ev1 ev2 : EvaluatorState) (h : ev1.gates = ev2.gates) :
    check_gate_internal sha256 ev1 fuel now user gate =
      check_gate_internal sha256 ev2 fuel now user gate :=
  (evaluator_reads_only_gates sha256 fuel ev1 ev2 h now user).2.2.2.2.2 gate

/-- A state with the gates of `ev_w` but different other catalogs. -/
def ev_w_variant : EvaluatorState where
  dynamic_configs := [("dc_disabled", spec_disabled)]
  gates := [("gate_w", spec_w)]
  layer_configs := [("layer", spec_w)]

/-- Witness for C9 (amended): two concrete states agreeing on `gates`. -/
theorem check_gate_deterministic_witness :
    check_gate_internal sha_zero ev_w 1 0 user_w "gate_w" =
      check_gate_internal sha_zero ev_w_variant 1 0 user_w "gate_w" :=
  check_gate_deterministic sha_zero 1 0 user_w "gate_w" ev_w ev_w_variant rfl

/-- A `current_time` condition: passes before unix second 1000. -/
def cond_time : ConfigCondition where
  type := ConditionType.currentTime
  operator := some OperatorType.before
  field := none
  target_value := some (JsonValue.num 1000)
  additional_values := none
  id_type := "userID"

/-- A rule gated only by `cond_time`, at 100%. -/
def rule_time : ConfigRule where
  name := "time_rule"
  id := "time_rule_id"
  salt := "rs"
  pass_percentage := 100
  conditions := [cond_time]
  return_value := JsonValue.bool true
  id_type := "userID"
  group_name := some "time"

/-- An enabled gate holding `rule_time`. -/
def spec_time : ConfigSpec where
  name := "time_gate"
  type := ConfigSpecType.featureGate
  salt := "s"
  enabled := true
  rules := some [rule_time]
  default_value := JsonValue.bool false
  id_type := some "userID"

/-- A catalog holding only `spec_time`. -/
def ev_time : EvaluatorState := ⟨[], [("time_gate", spec_time)], []⟩

/-- C9 counterexample: with the catalog `ev_time` fixed, checking the same
gate for the same user at clock 0 and at clock 2000 yields different
results — gate checking is not independent of when it runs. -/
theorem check_gate_time_counterexample :
    (check_gate_internal sha_zero ev_time 1 0 user_w "time_gate").pass = true
    ∧ (check_gate_internal sha_zero ev_time 1 2000 user_w "time_gate").pass = false
    ∧ check_gate_internal sha_zero ev_time 1 0 user_w "time_gate" ≠
        check_gate_internal sha_zero ev_time 1 2000 user_w "time_gate" := by
  have hlook : alist_get ev_time.gates "time_gate" = some spec_time := rfl
  have hen : spec_time.enabled = true := rfl
  have hru : spec_time.rules = some [rule_time] := rfl
  have hco : rule_time.conditions = [cond_time] := rfl
  have hpp : ∀ (u : StatsigUser) (r : ConfigRule) (s : ConfigSpec),
      r.pass_percentage = 100 → eval_pass_percent sha_zero u r s = true := by
    intro u r s h
    unfold eval_pass_percent get_hash combine_digest sha_zero
    rw [h, decide_eq_true_eq]
    simp [List.getD]
  have hc0 : eval_condition sha_zero ev_time 1 0 user_w cond_time =
      { EvalResult.mkFail with pass := true } := by
    simp [eval_condition, cond_time, eval_operator, get_unix_epoch]
  have hc2000 : eval_condition sha_zero ev_time 1 2000 user_w cond_time =
      { EvalResult.mkFail with pass := false } := by
    simp [eval_condition, cond_time, eval_operator, get_unix_epoch]
  have hr0 : eval_rule sha_zero ev_time 1 0 user_w rule_time =
      { EvalResult.mkFail with pass := true } := by
    simp only [eval_rule, hco, eval_conditions_loop, hc0]
    simp [EvalResult.mkFail, EvalResult.new]
  have hr2000 : eval_rule sha_zero ev_time 1 2000 user_w rule_time =
      { EvalResult.mkFail with pass := false } := by
    simp only [eval_rule, hco, eval_conditions_loop, hc2000]
    simp [EvalResult.mkFail, EvalResult.new]
  have h0 : (check_gate_internal sha_zero ev_time 1 0 user_w "time_gate").pass = true := by
    simp only [check_gate_internal, hlook, eval_spec, hen, hru, Bool.not_true,
      Bool.false_eq_true, if_false, Option.getD_some, eval_rules, hr0]
    simp [hpp, EvalResult.mkFail, EvalResult.new, rule_time]
  have h2000 : (check_gate_internal sha_zero ev_time 1 2000 user_w "time_gate").pass = false := by
    simp only [check_gate_internal, hlook, eval_spec, hen, hru, Bool.not_true,
      Bool.false_eq_true, if_false, Option.getD_some, eval_rules, hr2000]
    simp [EvalResult.mkFail, EvalResult.new]
  refine ⟨h0, h2000, fun heq => ?_⟩
  rw [heq, h2000] at h0
  exact Bool.false_ne_true h0
